import Mathlib

/-!
A shallow embedding of `io_ot.py`, the retrieval-augmented Q&A bot.

Python dictionaries with optional keys are embedded as structures of
`Option` fields; `dict.get(k, d)` becomes `Option.getD`.  The external
services (the vector index `dense_index.search`, the generative model,
and the messaging backend `event.respond`) are passed in as oracle
functions returning `Except Exn _`, an exception being modelled as an
`Except.error`.  Every observable effect (a retrieval call with its
arguments, a generation call with its prompt, an outbound reply, the
typing-presence scope, a log line) is recorded in a trace of `Act`s,
so that theorems can speak about which calls a run issues and in which
order.  Relevance scores, floats in the source, are modelled as exact
rationals; `round(x, 2)` is modelled as round-half-to-even at two
decimal places and the display of the rounded value follows the decimal
shortest-form rule (trailing zeros dropped, at least one fractional
digit), matching Python string conversion of such values.
-/

/-- A raised exception, carrying its message. -/
structure Exn where
  msg : String
deriving DecidableEq

/-- The `fields` sub-dictionary of one retrieved hit. -/
structure HitFields where
  page_number : Option String
  topic : Option String
  chunk_text : Option String
deriving DecidableEq

/-- One retrieved hit: the keys read by the formatting code. -/
structure Hit where
  _id : Option String
  _score : Option Rat
  fields : Option HitFields
deriving DecidableEq

/-- The `result` sub-dictionary of a search response. -/
structure ResultObj where
  hits : Option (List Hit)
deriving DecidableEq

/-- A search response, as consumed via `results.get(\x27result\x27, ...).get(\x27hits\x27, ...)`. -/
structure SearchResult where
  result : Option ResultObj
deriving DecidableEq

/-- The hit list actually extracted from a search response (missing layers default). -/
def hitsOf (results : SearchResult) : List Hit :=
  ((results.result.getD ⟨none⟩).hits).getD []

/-- The character for a decimal digit `d < 10`. -/
def digitChar (d : Nat) : Char :=
  if d = 0 then '0' else if d = 1 then '1' else if d = 2 then '2' else if d = 3 then '3'
  else if d = 4 then '4' else if d = 5 then '5' else if d = 6 then '6' else if d = 7 then '7'
  else if d = 8 then '8' else '9'

/-- Fuel-driven decimal digit expansion, most significant digit first. -/
def natDigitsAux : Nat → Nat → List Char
  | 0, _ => []
  | fuel+1, n =>
    if n < 10 then [digitChar n]
    else natDigitsAux fuel (n / 10) ++ [digitChar (n % 10)]

/-- Decimal digits of a natural number (`n + 1` fuel always suffices). -/
def natDigits (n : Nat) : List Char := natDigitsAux (n + 1) n

/-- Fractional digits shown for a rounded value whose last two decimal
digits are `f` (`f < 100`): trailing zeros dropped, at least one digit. -/
def fracDigits (f : Nat) : List Char :=
  if f = 0 then [digitChar 0]
  else if f % 10 = 0 then natDigits (f / 10)
  else if f < 10 then digitChar 0 :: natDigits f
  else natDigits f

/-- Display of the value `m / 100` as Python displays the rounded float. -/
def floatRepr (m : Int) : String :=
  String.mk ((if m < 0 then ['-'] else []) ++
    (natDigits (m.natAbs / 100) ++ '.' :: fracDigits (m.natAbs % 100)))

/-- `round(q, 2)` scaled by 100: round half to even at two decimal places,
computed on the numerator and denominator.  `n = ⌊100q⌋` and `r` is the
remainder of `100q` over `n`, so the fractional part of `100q` is `r / q.den`:
below a half round down, above a half round up, a tie rounds to even. -/
def pyRound2 (q : Rat) : Int :=
  let n : Int := Int.fdiv (100 * q.num) (q.den : Int)
  let r : Int := 100 * q.num - n * (q.den : Int)
  if 2 * r < (q.den : Int) then n
  else if (q.den : Int) < 2 * r then n + 1
  else if n % 2 = 0 then n else n + 1

/-- Display of `round(hit.get(\x27_score\x27, 0), 2)`: a missing score defaults to
the integer `0`, shown as `0`; a present score is rounded and shown as a float. -/
def renderScore : Option Rat → String
  | none => "0"
  | some q => floatRepr (pyRound2 q)

/-- The block emitted for one hit (source lines 100-102). -/
def formatHit (hit : Hit) : String :=
  let flds := hit.fields.getD ⟨none, none, none⟩
  ("ID: " ++ hit._id.getD "N/A") ++
  ((" | SCORE: " ++ renderScore hit._score) ++
   ((" | PAGE_NUMBER: " ++ flds.page_number.getD "N/A") ++
    (("\nTEXT_HEADER: " ++ flds.topic.getD "N/A") ++
     ("\nTEXT_CONTENT: " ++ (flds.chunk_text.getD "N/A" ++ "\n\n")))))

/-- `formatted_results`: the hit blocks of one namespace joined by newlines. -/
def formatResults (results : SearchResult) : String :=
  String.intercalate "\n" ((hitsOf results).map formatHit)

/-- The instruction template of `generate_content`, with the query and the
assembled context spliced in at their two and one interpolation points. -/
def system_prompt (query contents : String) : String :=
  "\n    You are a specialized AI assistant. Your sole purpose is to answer the user\x27s query based exclusively on the provided search results. You must adhere to the following instructions without deviation.\n" ++
  "\n    **Instructions:**\n" ++
  "\n    1.  **Analyze the User\x27s Query:** The user wants to know: \"" ++ query ++ "\"\n" ++
  "\n    2.  **Review the Provided Context:** You are given the following search results, each containing an ID, SCORE, PAGE_NUMBER, TEXT_HEADER, and TEXT_CONTENT.\n" ++
  "\n        ```context\n        " ++ contents ++ "\n        ```\n" ++
  "\n    3.  **Synthesize the Answer:**\n" ++
  "        * Formulate a descriptive answer to the user\x27s query using *only* the information found in the `TEXT_CONTENT` of the provided results.\n" ++
  "        * The answer must be more than five sentences.\n" ++
  "        * Do not invent, infer, or use any information outside of the provided context.\n" ++
  "        * If you couldn\x27t find a suitable answer to the " ++ query ++ ", just reply with \"Im sorry, there isnt a suitale answer to your question in the book.\"\n" ++
  "    4.  **Cite Your Sources:**\n" ++
  "        * After the answer, list the sources you used.\n" ++
  "        * For each source, you must include its `ID`, `SCORE`, and `PAGE_NUMBER`.\n" ++
  "        * Format each citation exactly as: `Source: \n ID: [ID], SCORE: [SCORE],HEADER:[TEXT_HEADER] PAGE_NUMBER: [PAGE_NUMBER]`\n" ++
  "    \n" ++
  "\n    **Output Mandate:**\n" ++
  "\n    * Your entire output must consist of two parts ONLY: the synthesized answer first, followed by the list of source citations.\n" ++
  "    * DO NOT add any introductory phrases, greetings, apologies, or concluding remarks.\n" ++
  "    * DO NOT use any formatting other than what is specified.\n    "

/-- Python string prefix test (`str.startswith`, and the anchored
`re.match` of a literal pattern): character-list prefix. -/
def strStartsWith (s pre : String) : Bool :=
  pre.data.isPrefixOf s.data

/-- One observable effect of a run. -/
inductive Act where
  | searchCall (ns : String) (top_k : Nat) (text : String)
  | genCall (prompt : String)
  | reply (chat_id : Int) (text : String)
  | typing (chat_id : Int)
  | typingCleared (chat_id : Int)
  | logInfo (m : String)
  | logError (m : String)
deriving DecidableEq

/-- The vector-index oracle: namespace, query text, `top_k`. -/
abbrev SearchFn : Type := String → String → Nat → Except Exn SearchResult

/-- The generative-model oracle: prompt to raw answer text. -/
abbrev GenFn : Type := String → Except Exn String

/-- `generate_content`: builds the prompt and issues one generation call. -/
def generate_content (gen : GenFn) (query contents : String) :
    List Act × Except Exn String :=
  ([Act.genCall (system_prompt query contents)], gen (system_prompt query contents))

/-- The fixed namespace list of `process_query`. -/
def namespaces : List String := ["key_words", "general_text", "tables"]

/-- The retrieval loop of `process_query`: one search per namespace with
`top_k = 5`; an error aborts the loop and propagates, skipping the
remaining namespaces. -/
def searchLoop (search : SearchFn) (query : String) :
    List String → List Act × Except Exn (List String)
  | [] => ([], Except.ok [])
  | ns :: rest =>
    match search ns query 5 with
    | Except.error e => ([Act.searchCall ns 5 query], Except.error e)
    | Except.ok results =>
      let step := searchLoop search query rest
      (Act.searchCall ns 5 query :: step.1,
       step.2.map (fun ctxs => formatResults results :: ctxs))

/-- `process_query`: multi-namespace retrieval, context join, generation. -/
def process_query (search : SearchFn) (gen : GenFn) (query : String) :
    List Act × Except Exn String :=
  match searchLoop search query namespaces with
  | (acts, Except.error e) => (acts, Except.error e)
  | (acts, Except.ok all_contexts) =>
    (acts ++ (generate_content gen query (String.intercalate "\n" all_contexts)).1,
     (generate_content gen query (String.intercalate "\n" all_contexts)).2)

/-- An inbound message event. -/
structure InboundMsg where
  text : String
  chat_id : Int
deriving DecidableEq

/-- The external services a handler uses. -/
structure Env where
  search : SearchFn
  gen : GenFn
  respond : Int → String → Except Exn Unit

/-- The static welcome reply of the `/start` handler. -/
def welcome_message : String :=
  "Hello! I am a Q&A bot for the Grade 11 Biology curriculum.\n\n" ++
  "Please ask me a question, and I will find the answer for you from the textbook."

/-- The fixed apology reply of the error branch. -/
def apology : String :=
  "I\x27m sorry, an unexpected error occurred while processing your request. Please try again later."

/-- The `start` handler: respond with the welcome, then log. -/
def start (env : Env) (event : InboundMsg) : List Act × Except Exn Unit :=
  match env.respond event.chat_id welcome_message with
  | Except.ok _ =>
    ([Act.reply event.chat_id welcome_message,
      Act.logInfo ("Started new session for chat_id: " ++ toString event.chat_id)],
     Except.ok ())
  | Except.error e => ([], Except.error e)

/-- The `except` branch of `message_handler`: log the error and respond
with the fixed apology; a failure of that respond itself propagates. -/
def exceptClause (env : Env) (chat_id : Int) (e : Exn) : List Act × Except Exn Unit :=
  match env.respond chat_id apology with
  | Except.ok _ =>
    ([Act.logError ("An error occurred while processing query for chat_id " ++
        toString chat_id ++ ": " ++ e.msg),
      Act.reply chat_id apology], Except.ok ())
  | Except.error e2 =>
    ([Act.logError ("An error occurred while processing query for chat_id " ++
        toString chat_id ++ ": " ++ e.msg)], Except.error e2)

/-- The `try` block of `message_handler`: run `process_query`, respond with
its answer, log success; any error falls into the `except` branch. -/
def tryClause (env : Env) (chat_id : Int) (user_query : String) :
    List Act × Except Exn Unit :=
  match (process_query env.search env.gen user_query).2 with
  | Except.ok response_text =>
    match env.respond chat_id response_text with
    | Except.ok _ =>
      ((process_query env.search env.gen user_query).1 ++
        [Act.reply chat_id response_text,
         Act.logInfo ("Successfully sent response to chat_id " ++ toString chat_id)],
       Except.ok ())
    | Except.error e =>
      ((process_query env.search env.gen user_query).1 ++ (exceptClause env chat_id e).1,
       (exceptClause env chat_id e).2)
  | Except.error e =>
    ((process_query env.search env.gen user_query).1 ++ (exceptClause env chat_id e).1,
     (exceptClause env chat_id e).2)

/-- `message_handler`: ignore `/`-prefixed text; otherwise log receipt and
run the try/except block inside the typing-presence scope, which is
entered before and left after it on every path, error paths included. -/
def message_handler (env : Env) (event : InboundMsg) : List Act × Except Exn Unit :=
  if strStartsWith event.text "/" then ([], Except.ok ())
  else
    (Act.logInfo ("Received query from chat_id " ++ toString event.chat_id ++
        ": \x27" ++ event.text ++ "\x27") ::
      Act.typing event.chat_id ::
      ((tryClause env event.chat_id event.text).1 ++ [Act.typingCleared event.chat_id]),
     (tryClause env event.chat_id event.text).2)

/-- Event dispatch: the `start` handler is registered with regex pattern
`/start`, which the event filter applies with `re.match`, i.e. as a prefix
match on the message text; `message_handler` is registered unfiltered and
runs on every message. Handlers run in registration order. -/
def dispatch (env : Env) (event : InboundMsg) : List Act × List (Except Exn Unit) :=
  if strStartsWith event.text "/start" then
    ((start env event).1 ++ (message_handler env event).1,
     [(start env event).2, (message_handler env event).2])
  else
    ((message_handler env event).1, [(message_handler env event).2])

/-- A session: each inbound message is handled independently. -/
def runSession (env : Env) (events : List InboundMsg) :
    List (List Act × Except Exn Unit) :=
  events.map (message_handler env)

/-- Number of characters after the first decimal point of a rendered value. -/
def decimalPlaces (s : String) : Nat :=
  (s.data.dropWhile (fun c => c != '.')).length - 1

/-- The retrieval calls of a trace. -/
def retrievalCalls (tr : List Act) : List Act :=
  tr.filter fun a => match a with
    | Act.searchCall _ _ _ => true
    | _ => false

/-- A hit with every optional field absent. -/
def emptyHit : Hit := ⟨none, none, none⟩

/-- A search result carrying no hits at any layer. -/
def emptySR : SearchResult := ⟨none⟩

/-- An environment whose services all succeed trivially. -/
def envOk : Env :=
  ⟨fun _ _ _ => Except.ok emptySR, fun _ => Except.ok "answer", fun _ _ => Except.ok ()⟩

/-- A search oracle whose `tables` namespace is unreachable. -/
def searchFailTables : SearchFn := fun ns _ _ =>
  if ns = "tables" then Except.error ⟨"index unreachable"⟩ else Except.ok emptySR

/-- A search oracle answering with the fully absent response shape. -/
def searchNone : SearchFn := fun _ _ _ => Except.ok ⟨none⟩

/-- A search oracle answering with an explicit empty hit list. -/
def searchEmptyList : SearchFn := fun _ _ _ => Except.ok ⟨some ⟨some []⟩⟩

/-- An environment whose index and model are both down but whose
messaging delivery succeeds. -/
def envBad : Env :=
  ⟨fun _ _ _ => Except.error ⟨"boom"⟩, fun _ => Except.error ⟨"genfail"⟩,
   fun _ _ => Except.ok ()⟩

/-- An environment whose index is down and whose messaging delivery also
fails. -/
def envBad2 : Env :=
  ⟨fun _ _ _ => Except.error ⟨"boom"⟩, fun _ => Except.ok "x",
   fun _ _ => Except.error ⟨"network down"⟩⟩

/-- A hit whose score is exactly one half, every other field present. -/
def hitHalf : Hit :=
  ⟨some "kw-1", some (mkRat 1 2), some ⟨some "12", some "Cells", some "Cell text"⟩⟩

/-- A second, distinct inbound query message. -/
def msgNext : InboundMsg := ⟨"and what is respiration?", 2⟩

/-- A search oracle whose `key_words` namespace is unreachable. -/
def searchFailKw : SearchFn := fun ns _ _ =>
  if ns = "key_words" then Except.error ⟨"index unreachable"⟩ else Except.ok emptySR

/-- A search oracle whose `general_text` namespace is unreachable. -/
def searchFailGt : SearchFn := fun ns _ _ =>
  if ns = "general_text" then Except.error ⟨"index unreachable"⟩ else Except.ok emptySR

/-- An environment whose pipeline succeeds but whose messaging delivery
always fails. -/
def envRespondDown : Env :=
  ⟨fun _ _ _ => Except.ok emptySR, fun _ => Except.ok "the answer",
   fun _ _ => Except.error ⟨"network down"⟩⟩

/-- A hit whose `fields` dictionary is present but misses its page number
and content keys individually. -/
def hitPartialFields : Hit :=
  ⟨some "gt-2", some (mkRat 7 8), some ⟨none, some "Photosynthesis", none⟩⟩

/-! ### General lemmas about the embedding -/

theorem str_data_append (s t : String) : (s ++ t).data = s.data ++ t.data := rfl

theorem str_ext {s t : String} (h : s.data = t.data) : s = t := by
  cases s; cases t; exact congrArg String.mk h

theorem str_assoc (a b c : String) : a ++ b ++ c = a ++ (b ++ c) :=
  str_ext (by simp [str_data_append])

theorem process_query_ok (search : SearchFn) (gen : GenFn) (query : String)
    {r1 r2 r3 : SearchResult}
    (h1 : search "key_words" query 5 = Except.ok r1)
    (h2 : search "general_text" query 5 = Except.ok r2)
    (h3 : search "tables" query 5 = Except.ok r3) :
    process_query search gen query =
      ([Act.searchCall "key_words" 5 query, Act.searchCall "general_text" 5 query,
        Act.searchCall "tables" 5 query,
        Act.genCall (system_prompt query (String.intercalate "\n"
          [formatResults r1, formatResults r2, formatResults r3]))],
       gen (system_prompt query (String.intercalate "\n"
          [formatResults r1, formatResults r2, formatResults r3]))) := by
  unfold process_query namespaces
  simp [searchLoop, h1, h2, h3, generate_content, Except.map]

theorem process_query_err3 (search : SearchFn) (gen : GenFn) (query : String)
    {r1 r2 : SearchResult} {e : Exn}
    (h1 : search "key_words" query 5 = Except.ok r1)
    (h2 : search "general_text" query 5 = Except.ok r2)
    (h3 : search "tables" query 5 = Except.error e) :
    process_query search gen query =
      ([Act.searchCall "key_words" 5 query, Act.searchCall "general_text" 5 query,
        Act.searchCall "tables" 5 query], Except.error e) := by
  unfold process_query namespaces
  simp [searchLoop, h1, h2, h3, Except.map]

theorem process_query_err1 (search : SearchFn) (gen : GenFn) (query : String)
    {e : Exn}
    (h1 : search "key_words" query 5 = Except.error e) :
    process_query search gen query =
      ([Act.searchCall "key_words" 5 query], Except.error e) := by
  unfold process_query namespaces
  simp [searchLoop, h1]

theorem process_query_err2 (search : SearchFn) (gen : GenFn) (query : String)
    {r1 : SearchResult} {e : Exn}
    (h1 : search "key_words" query 5 = Except.ok r1)
    (h2 : search "general_text" query 5 = Except.error e) :
    process_query search gen query =
      ([Act.searchCall "key_words" 5 query, Act.searchCall "general_text" 5 query],
       Except.error e) := by
  unfold process_query namespaces
  simp [searchLoop, h1, h2, Except.map]

/-! ### C1 -/

/-- C1: for every query, `process_query` issues exactly three retrieval
calls, one per namespace in the fixed order `key_words`, `general_text`,
`tables`, each with `top_k = 5` (stated over an arbitrary non-failing
index oracle; a failing retrieval aborts the loop early, see C5). -/
theorem process_query_issues_three_searches
    (searchOk : String → String → Nat → SearchResult) (gen : GenFn) (query : String) :
    retrievalCalls (process_query (fun ns text k => Except.ok (searchOk ns text k)) gen query).1 =
      [Act.searchCall "key_words" 5 query, Act.searchCall "general_text" 5 query,
       Act.searchCall "tables" 5 query] := by
  rw [process_query_ok _ gen query rfl rfl rfl]
  simp [retrievalCalls]

/-! ### C5 -/

/-- C5: if the retrieval call for any one of the three namespaces raises,
`process_query` fails as a whole with that error: the trace holds exactly
the search calls made up to and including the failing one and in
particular no generation call, and the returned value is the error alone,
so results already obtained from earlier namespaces are discarded and
later namespaces are never queried. -/
theorem any_retrieval_error_aborts (search : SearchFn) (gen : GenFn) (query : String) :
    (∀ e, search "key_words" query 5 = Except.error e →
      process_query search gen query =
        ([Act.searchCall "key_words" 5 query], Except.error e) ∧
      ∀ p, Act.genCall p ∉ (process_query search gen query).1) ∧
    (∀ r1 e, search "key_words" query 5 = Except.ok r1 →
      search "general_text" query 5 = Except.error e →
      process_query search gen query =
        ([Act.searchCall "key_words" 5 query, Act.searchCall "general_text" 5 query],
         Except.error e) ∧
      ∀ p, Act.genCall p ∉ (process_query search gen query).1) ∧
    (∀ r1 r2 e, search "key_words" query 5 = Except.ok r1 →
      search "general_text" query 5 = Except.ok r2 →
      search "tables" query 5 = Except.error e →
      process_query search gen query =
        ([Act.searchCall "key_words" 5 query, Act.searchCall "general_text" 5 query,
          Act.searchCall "tables" 5 query], Except.error e) ∧
      ∀ p, Act.genCall p ∉ (process_query search gen query).1) := by
  refine ⟨fun e h1 => ?_, fun r1 e h1 h2 => ?_, fun r1 r2 e h1 h2 h3 => ?_⟩
  · have hmain := process_query_err1 search gen query h1
    refine ⟨hmain, fun p hp => ?_⟩
    rw [hmain] at hp
    simp at hp
  · have hmain := process_query_err2 search gen query h1 h2
    refine ⟨hmain, fun p hp => ?_⟩
    rw [hmain] at hp
    simp at hp
  · have hmain := process_query_err3 search gen query h1 h2 h3
    refine ⟨hmain, fun p hp => ?_⟩
    rw [hmain] at hp
    simp at hp

theorem any_retrieval_error_aborts_witness :
    process_query searchFailKw envOk.gen "What is photosynthesis?" =
      ([Act.searchCall "key_words" 5 "What is photosynthesis?"],
       Except.error ⟨"index unreachable"⟩) ∧
    process_query searchFailGt envOk.gen "What is photosynthesis?" =
      ([Act.searchCall "key_words" 5 "What is photosynthesis?",
        Act.searchCall "general_text" 5 "What is photosynthesis?"],
       Except.error ⟨"index unreachable"⟩) ∧
    process_query searchFailTables envOk.gen "What is photosynthesis?" =
      ([Act.searchCall "key_words" 5 "What is photosynthesis?",
        Act.searchCall "general_text" 5 "What is photosynthesis?",
        Act.searchCall "tables" 5 "What is photosynthesis?"],
       Except.error ⟨"index unreachable"⟩) :=
  ⟨((any_retrieval_error_aborts searchFailKw envOk.gen "What is photosynthesis?").1
      ⟨"index unreachable"⟩ rfl).1,
   ((any_retrieval_error_aborts searchFailGt envOk.gen "What is photosynthesis?").2.1
      emptySR ⟨"index unreachable"⟩ rfl rfl).1,
   ((any_retrieval_error_aborts searchFailTables envOk.gen "What is photosynthesis?").2.2
      emptySR emptySR ⟨"index unreachable"⟩ rfl rfl rfl).1⟩

/-! ### C8 -/

/-- C8: context assembly and prompt construction are deterministic pure
functions of the ordered hit sequences and the query: two oracles whose
extracted hit lists agree per namespace (even if the raw response shape
differs) yield identical formatted blocks, and the whole `process_query`
run — its assembled context, its prompt and its generation call — is
byte-identical between the two. -/
theorem assembly_and_prompt_deterministic (s1 s2 : SearchFn) (gen : GenFn) (q : String)
    {r1 r1' r2 r2' r3 r3' : SearchResult}
    (h1 : s1 "key_words" q 5 = Except.ok r1) (h1' : s2 "key_words" q 5 = Except.ok r1')
    (e1 : hitsOf r1 = hitsOf r1')
    (h2 : s1 "general_text" q 5 = Except.ok r2) (h2' : s2 "general_text" q 5 = Except.ok r2')
    (e2 : hitsOf r2 = hitsOf r2')
    (h3 : s1 "tables" q 5 = Except.ok r3) (h3' : s2 "tables" q 5 = Except.ok r3')
    (e3 : hitsOf r3 = hitsOf r3') :
    formatResults r1 = formatResults r1' ∧
    process_query s1 gen q = process_query s2 gen q := by
  have f1 : formatResults r1 = formatResults r1' := by unfold formatResults; rw [e1]
  have f2 : formatResults r2 = formatResults r2' := by unfold formatResults; rw [e2]
  have f3 : formatResults r3 = formatResults r3' := by unfold formatResults; rw [e3]
  refine ⟨f1, ?_⟩
  rw [process_query_ok s1 gen q h1 h2 h3, process_query_ok s2 gen q h1' h2' h3', f1, f2, f3]

theorem assembly_and_prompt_deterministic_witness :
    process_query searchNone envOk.gen "What is photosynthesis?" =
      process_query searchEmptyList envOk.gen "What is photosynthesis?" :=
  (assembly_and_prompt_deterministic searchNone searchEmptyList envOk.gen
    "What is photosynthesis?" rfl rfl (by decide) rfl rfl (by decide) rfl rfl (by decide)).2

/-! ### C9 -/

/-- C9: when all three namespaces return zero hits, the assembled context
is the join of three empty blocks (the string of two newlines), the prompt
is still built from it, and the generation call is still issued: the
pipeline does not short-circuit on empty retrieval results. -/
theorem empty_hits_still_generates (search : SearchFn) (gen : GenFn) (q : String)
    {r1 r2 r3 : SearchResult}
    (h1 : search "key_words" q 5 = Except.ok r1) (e1 : hitsOf r1 = [])
    (h2 : search "general_text" q 5 = Except.ok r2) (e2 : hitsOf r2 = [])
    (h3 : search "tables" q 5 = Except.ok r3) (e3 : hitsOf r3 = []) :
    process_query search gen q =
      ([Act.searchCall "key_words" 5 q, Act.searchCall "general_text" 5 q,
        Act.searchCall "tables" 5 q, Act.genCall (system_prompt q "\n\n")],
       gen (system_prompt q "\n\n")) := by
  have f1 : formatResults r1 = "" := by unfold formatResults; rw [e1]; rfl
  have f2 : formatResults r2 = "" := by unfold formatResults; rw [e2]; rfl
  have f3 : formatResults r3 = "" := by unfold formatResults; rw [e3]; rfl
  rw [process_query_ok search gen q h1 h2 h3, f1, f2, f3]
  rfl

theorem empty_hits_still_generates_witness :
    process_query searchNone envOk.gen "What is photosynthesis?" =
      ([Act.searchCall "key_words" 5 "What is photosynthesis?",
        Act.searchCall "general_text" 5 "What is photosynthesis?",
        Act.searchCall "tables" 5 "What is photosynthesis?",
        Act.genCall (system_prompt "What is photosynthesis?" "\n\n")],
       envOk.gen (system_prompt "What is photosynthesis?" "\n\n")) :=
  empty_hits_still_generates searchNone envOk.gen "What is photosynthesis?"
    rfl (by decide) rfl (by decide) rfl (by decide)

/-! ### C2 -/

/-- C2 counterexample: on the hit with every field absent, the formatted
block reads `SCORE: 0` — the integer default of `hit.get(\x27_score\x27, 0)` —
and not the sentinel `N/A` that the claim requires for every missing
field. -/
theorem missing_score_renders_zero_not_na :
    formatHit emptyHit =
      "ID: N/A | SCORE: 0 | PAGE_NUMBER: N/A\nTEXT_HEADER: N/A\nTEXT_CONTENT: N/A\n\n" ∧
    formatHit emptyHit ≠
      "ID: N/A | SCORE: N/A | PAGE_NUMBER: N/A\nTEXT_HEADER: N/A\nTEXT_CONTENT: N/A\n\n" :=
  ⟨by decide, by decide⟩

theorem na_page_number_infix (a b tp ct : String) :
    " | PAGE_NUMBER: N/A\nTEXT_HEADER: ".data <:+:
      (("ID: " ++ a) ++
       ((" | SCORE: " ++ b) ++
        ((" | PAGE_NUMBER: " ++ "N/A") ++
         (("\nTEXT_HEADER: " ++ tp) ++
          ("\nTEXT_CONTENT: " ++ (ct ++ "\n\n")))))).data := by
  refine ⟨(("ID: " ++ a) ++ (" | SCORE: " ++ b)).data,
    (tp ++ ("\nTEXT_CONTENT: " ++ (ct ++ "\n\n"))).data, ?_⟩
  simp only [str_data_append, List.append_assoc]
  rfl

theorem na_topic_infix (a b pn ct : String) :
    "\nTEXT_HEADER: N/A\nTEXT_CONTENT: ".data <:+:
      (("ID: " ++ a) ++
       ((" | SCORE: " ++ b) ++
        ((" | PAGE_NUMBER: " ++ pn) ++
         (("\nTEXT_HEADER: " ++ "N/A") ++
          ("\nTEXT_CONTENT: " ++ (ct ++ "\n\n")))))).data := by
  refine ⟨(("ID: " ++ a) ++ ((" | SCORE: " ++ b) ++ (" | PAGE_NUMBER: " ++ pn))).data,
    (ct ++ "\n\n").data, ?_⟩
  simp only [str_data_append, List.append_assoc]
  rfl

theorem na_content_suffix (a b pn tp : String) :
    "\nTEXT_CONTENT: N/A\n\n".data <:+
      (("ID: " ++ a) ++
       ((" | SCORE: " ++ b) ++
        ((" | PAGE_NUMBER: " ++ pn) ++
         (("\nTEXT_HEADER: " ++ tp) ++
          ("\nTEXT_CONTENT: " ++ ("N/A" ++ "\n\n")))))).data := by
  refine ⟨(("ID: " ++ a) ++ ((" | SCORE: " ++ b) ++
    ((" | PAGE_NUMBER: " ++ pn) ++ ("\nTEXT_HEADER: " ++ tp)))).data, ?_⟩
  simp only [str_data_append, List.append_assoc]
  rfl

/-- C2 (amended): context assembly never raises on a hit with missing
fields — `formatHit` is total — and renders every missing field except the
score as the sentinel `N/A`: a missing identifier yields the prefix
`ID: N/A | SCORE: `; a page number, header, or content that is absent
after the two-level lookup — whether the whole `fields` dictionary is
missing or only that individual key — renders as `N/A` in its slot; a
missing score renders as the default `0`, so the block contains
` | SCORE: 0 | PAGE_NUMBER: `. -/
theorem missing_field_rendering (hit : Hit) :
    (hit._id = none → "ID: N/A | SCORE: ".data <+: (formatHit hit).data) ∧
    (hit.fields = none →
      " | PAGE_NUMBER: N/A\nTEXT_HEADER: N/A\nTEXT_CONTENT: N/A\n\n".data <:+ (formatHit hit).data) ∧
    ((hit.fields.getD ⟨none, none, none⟩).page_number = none →
      " | PAGE_NUMBER: N/A\nTEXT_HEADER: ".data <:+: (formatHit hit).data) ∧
    ((hit.fields.getD ⟨none, none, none⟩).topic = none →
      "\nTEXT_HEADER: N/A\nTEXT_CONTENT: ".data <:+: (formatHit hit).data) ∧
    ((hit.fields.getD ⟨none, none, none⟩).chunk_text = none →
      "\nTEXT_CONTENT: N/A\n\n".data <:+ (formatHit hit).data) ∧
    (hit._score = none → " | SCORE: 0 | PAGE_NUMBER: ".data <:+: (formatHit hit).data) := by
  obtain ⟨i, s0, f⟩ := hit
  refine ⟨fun h => ?_, fun h => ?_, fun h => ?_, fun h => ?_, fun h => ?_, fun h => ?_⟩
  · replace h : i = none := h
    subst h
    exact ⟨(renderScore s0 ++
      ((" | PAGE_NUMBER: " ++ (f.getD ⟨none, none, none⟩).page_number.getD "N/A") ++
       (("\nTEXT_HEADER: " ++ (f.getD ⟨none, none, none⟩).topic.getD "N/A") ++
        ("\nTEXT_CONTENT: " ++ ((f.getD ⟨none, none, none⟩).chunk_text.getD "N/A" ++ "\n\n"))))).data,
      rfl⟩
  · replace h : f = none := h
    subst h
    refine ⟨(("ID: " ++ i.getD "N/A") ++ (" | SCORE: " ++ renderScore s0)).data, ?_⟩
    rw [str_data_append, List.append_assoc]
    rfl
  · cases f with
    | none => exact na_page_number_infix (i.getD "N/A") (renderScore s0) "N/A" "N/A"
    | some fl =>
      obtain ⟨pn, tp, ct⟩ := fl
      replace h : pn = none := h
      subst h
      exact na_page_number_infix (i.getD "N/A") (renderScore s0) (tp.getD "N/A") (ct.getD "N/A")
  · cases f with
    | none => exact na_topic_infix (i.getD "N/A") (renderScore s0) "N/A" "N/A"
    | some fl =>
      obtain ⟨pn, tp, ct⟩ := fl
      replace h : tp = none := h
      subst h
      exact na_topic_infix (i.getD "N/A") (renderScore s0) (pn.getD "N/A") (ct.getD "N/A")
  · cases f with
    | none => exact na_content_suffix (i.getD "N/A") (renderScore s0) "N/A" "N/A"
    | some fl =>
      obtain ⟨pn, tp, ct⟩ := fl
      replace h : ct = none := h
      subst h
      exact na_content_suffix (i.getD "N/A") (renderScore s0) (pn.getD "N/A") (tp.getD "N/A")
  · replace h : s0 = none := h
    subst h
    refine ⟨("ID: " ++ i.getD "N/A").data,
      ((f.getD ⟨none, none, none⟩).page_number.getD "N/A" ++
       (("\nTEXT_HEADER: " ++ (f.getD ⟨none, none, none⟩).topic.getD "N/A") ++
        ("\nTEXT_CONTENT: " ++ ((f.getD ⟨none, none, none⟩).chunk_text.getD "N/A" ++ "\n\n")))).data, ?_⟩
    rw [List.append_assoc]
    rfl

theorem missing_field_rendering_witness :
    ("ID: N/A | SCORE: ".data <+: (formatHit emptyHit).data) ∧
    (" | PAGE_NUMBER: N/A\nTEXT_HEADER: N/A\nTEXT_CONTENT: N/A\n\n".data <:+ (formatHit emptyHit).data) ∧
    (" | SCORE: 0 | PAGE_NUMBER: ".data <:+: (formatHit emptyHit).data) ∧
    (" | PAGE_NUMBER: N/A\nTEXT_HEADER: ".data <:+: (formatHit hitPartialFields).data) ∧
    ("\nTEXT_HEADER: N/A\nTEXT_CONTENT: ".data <:+: (formatHit emptyHit).data) ∧
    ("\nTEXT_CONTENT: N/A\n\n".data <:+ (formatHit hitPartialFields).data) :=
  ⟨(missing_field_rendering emptyHit).1 rfl,
   (missing_field_rendering emptyHit).2.1 rfl,
   (missing_field_rendering emptyHit).2.2.2.2.2 rfl,
   (missing_field_rendering hitPartialFields).2.2.1 rfl,
   (missing_field_rendering emptyHit).2.2.2.1 rfl,
   (missing_field_rendering hitPartialFields).2.2.2.2.1 rfl⟩

/-! ### C3 -/

theorem digitChar_ne_dot (d : Nat) : digitChar d ≠ '.' := by
  unfold digitChar
  split_ifs <;> decide

theorem natDigitsAux_ne_dot : ∀ (fuel n : Nat), ∀ c ∈ natDigitsAux fuel n, c ≠ '.' := by
  intro fuel
  induction fuel with
  | zero => intro n c hc; simp [natDigitsAux] at hc
  | succ fuel ih =>
    intro n c hc
    by_cases h : n < 10
    · simp only [natDigitsAux, if_pos h, List.mem_singleton] at hc
      exact hc ▸ digitChar_ne_dot n
    · simp only [natDigitsAux, if_neg h, List.mem_append, List.mem_singleton] at hc
      rcases hc with hc | hc
      · exact ih (n / 10) c hc
      · exact hc ▸ digitChar_ne_dot (n % 10)

theorem natDigits_ne_dot (n : Nat) : ∀ c ∈ natDigits n, c ≠ '.' :=
  natDigitsAux_ne_dot (n + 1) n

theorem dropWhile_ne_dot_append : ∀ (l1 l2 : List Char), (∀ c ∈ l1, c ≠ '.') →
    (l1 ++ l2).dropWhile (fun c => c != '.') = l2.dropWhile (fun c => c != '.') := by
  intro l1 l2
  induction l1 with
  | nil => intro _; rfl
  | cons a t ih =>
    intro h
    have ha : (a != '.') = true := bne_iff_ne.mpr (h a (List.mem_cons_self a t))
    simp only [List.cons_append, List.dropWhile_cons, ha, if_true]
    exact ih (fun c hc => h c (List.mem_cons_of_mem a hc))

theorem fracDigits_length_le : ∀ f < 100, (fracDigits f).length ≤ 2 := by decide

theorem decimalPlaces_floatRepr_le (m : Int) : decimalPlaces (floatRepr m) ≤ 2 := by
  have hsign : ∀ c ∈ (if m < 0 then ['-'] else ([] : List Char)), c ≠ '.' := by
    split_ifs <;> intro c hc <;> simp at hc
    subst hc; decide
  unfold decimalPlaces floatRepr
  dsimp only
  rw [dropWhile_ne_dot_append _ _ hsign,
    dropWhile_ne_dot_append _ _ (natDigits_ne_dot (m.natAbs / 100))]
  simp only [List.dropWhile_cons]
  norm_num
  exact fracDigits_length_le _ (Nat.mod_lt _ (by decide))

/-- C3 counterexample: the hit whose score is exactly one half renders in
its assembled context block as `SCORE: 0.5` — one decimal place, not two
(`round(x, 2)` in an f-string, with no `.2f` format, keeps the default
shortest display of the rounded value). -/
theorem score_half_renders_one_decimal :
    formatHit hitHalf =
      "ID: kw-1 | SCORE: 0.5 | PAGE_NUMBER: 12\nTEXT_HEADER: Cells\nTEXT_CONTENT: Cell text\n\n" ∧
    decimalPlaces "0.5" = 1 :=
  ⟨by decide, by decide⟩

/-- C3 (amended): every rendered relevance score — a present score rounded
to two decimal places and displayed in shortest form, or the `0` default
of a missing score — shows at most two decimal places, not always exactly
two. -/
theorem score_decimal_places_le_two (s : Option Rat) :
    decimalPlaces (renderScore s) ≤ 2 := by
  cases s with
  | none => decide
  | some q => exact decimalPlaces_floatRepr_le (pyRound2 q)

/-! ### Dispatcher lemmas -/

theorem message_handler_eq (env : Env) (event : InboundMsg)
    (hq : strStartsWith event.text "/" = false) :
    message_handler env event =
      (Act.logInfo ("Received query from chat_id " ++ toString event.chat_id ++
          ": \x27" ++ event.text ++ "\x27") ::
        Act.typing event.chat_id ::
        ((tryClause env event.chat_id event.text).1 ++ [Act.typingCleared event.chat_id]),
       (tryClause env event.chat_id event.text).2) := by
  unfold message_handler
  rw [hq]
  rfl

theorem strStartsWith_slash_of_start {t : String}
    (h : strStartsWith t "/start" = true) : strStartsWith t "/" = true := by
  unfold strStartsWith at h ⊢
  rw [List.isPrefixOf_iff_prefix] at h ⊢
  exact List.IsPrefix.trans (by decide) h

/-! ### C4 -/

/-- C4 counterexample: the text `/startfoo` begins with `/` and is not the
exact command `/start`, yet dispatch sends it the welcome reply, because
the `/start` handler's pattern is an anchored regex matched as a prefix of
the message text. -/
theorem slash_startfoo_gets_welcome_reply :
    (dispatch envOk ⟨"/startfoo", 7⟩).1 =
      [Act.reply 7 welcome_message,
       Act.logInfo "Started new session for chat_id: 7"] ∧
    "/startfoo" ≠ "/start" ∧ strStartsWith "/startfoo" "/" = true :=
  ⟨by decide, by decide, by decide⟩

/-- C4 (amended): a message whose text begins with `/start` — the exact
command included, but also any longer text such as `/startfoo` — gets only
the static welcome reply, with no retrieval or generation call; a message
whose text begins with `/` but not with `/start` produces no reply and no
processing at all. -/
theorem command_routing (env : Env) (event : InboundMsg) :
    (strStartsWith event.text "/start" = true →
      env.respond event.chat_id welcome_message = Except.ok () →
      dispatch env event =
        ([Act.reply event.chat_id welcome_message,
          Act.logInfo ("Started new session for chat_id: " ++ toString event.chat_id)],
         [Except.ok (), Except.ok ()])) ∧
    (strStartsWith event.text "/" = true → strStartsWith event.text "/start" = false →
      dispatch env event = ([], [Except.ok ()])) := by
  constructor
  · intro h hr
    have h2 : strStartsWith event.text "/" = true := strStartsWith_slash_of_start h
    have hs : start env event =
        ([Act.reply event.chat_id welcome_message,
          Act.logInfo ("Started new session for chat_id: " ++ toString event.chat_id)],
         Except.ok ()) := by
      unfold start; rw [hr]
    have hm : message_handler env event = ([], Except.ok ()) := by
      unfold message_handler; rw [h2]; rfl
    unfold dispatch
    rw [h, hs, hm]
    rfl
  · intro h1 h2
    have hm : message_handler env event = ([], Except.ok ()) := by
      unfold message_handler; rw [h1]; rfl
    unfold dispatch
    rw [h2, hm]
    rfl

theorem command_routing_witness :
    dispatch envOk ⟨"/start", 3⟩ =
      ([Act.reply 3 welcome_message,
        Act.logInfo ("Started new session for chat_id: " ++ toString (3 : Int))],
       [Except.ok (), Except.ok ()]) ∧
    dispatch envOk ⟨"/help", 3⟩ = ([], [Except.ok ()]) :=
  ⟨(command_routing envOk ⟨"/start", 3⟩).1 (by decide) rfl,
   (command_routing envOk ⟨"/help", 3⟩).2 (by decide) (by decide)⟩

/-! ### C6 -/

/-- C6: for a non-command message, any failure of the per-message unit —
the pipeline raising, or the delivery of the answer raising — is caught
inside the handler: provided the apology delivery itself succeeds, the
handler terminates normally, its trace logs the error and replies with the
fixed apology, and handling a list of messages decomposes message by
message, so one message's failure leaves every subsequent, distinct
message to be processed independently. -/
theorem handler_converts_failure_to_apology (env : Env) (event : InboundMsg) (e : Exn)
    (hq : strStartsWith event.text "/" = false)
    (hfail : (process_query env.search env.gen event.text).2 = Except.error e ∨
      ∃ ans, (process_query env.search env.gen event.text).2 = Except.ok ans ∧
        env.respond event.chat_id ans = Except.error e)
    (hap : env.respond event.chat_id apology = Except.ok ()) :
    (message_handler env event).2 = Except.ok () ∧
    Act.reply event.chat_id apology ∈ (message_handler env event).1 ∧
    Act.logError ("An error occurred while processing query for chat_id " ++
        toString event.chat_id ++ ": " ++ e.msg) ∈ (message_handler env event).1 ∧
    ∀ rest, runSession env (event :: rest) =
      message_handler env event :: runSession env rest := by
  have hex : exceptClause env event.chat_id e =
      ([Act.logError ("An error occurred while processing query for chat_id " ++
          toString event.chat_id ++ ": " ++ e.msg),
        Act.reply event.chat_id apology], Except.ok ()) := by
    unfold exceptClause; rw [hap]
  have ht : tryClause env event.chat_id event.text =
      ((process_query env.search env.gen event.text).1 ++ (exceptClause env event.chat_id e).1,
       (exceptClause env event.chat_id e).2) := by
    rcases hfail with hp | ⟨ans, hok, hr⟩
    · unfold tryClause; rw [hp]
    · unfold tryClause
      rw [hok]
      dsimp only
      rw [hr]
  refine ⟨?_, ?_, ?_, fun rest => rfl⟩
  · rw [message_handler_eq env event hq, ht, hex]
  · rw [message_handler_eq env event hq, ht, hex]
    simp
  · rw [message_handler_eq env event hq, ht, hex]
    simp

theorem handler_converts_failure_to_apology_witness :
    (message_handler envBad ⟨"hi", 1⟩).2 = Except.ok () ∧
    Act.reply 1 apology ∈ (message_handler envBad ⟨"hi", 1⟩).1 ∧
    Act.logError ("An error occurred while processing query for chat_id " ++
        toString (1 : Int) ++ ": " ++ Exn.msg ⟨"boom"⟩) ∈ (message_handler envBad ⟨"hi", 1⟩).1 ∧
    runSession envBad (⟨"hi", 1⟩ :: [msgNext]) =
      message_handler envBad ⟨"hi", 1⟩ :: runSession envBad [msgNext] := by
  have h := handler_converts_failure_to_apology envBad ⟨"hi", 1⟩ ⟨"boom"⟩ (by decide)
    (Or.inl rfl) rfl
  exact ⟨h.1, h.2.1, h.2.2.1, h.2.2.2 [msgNext]⟩

/-! ### C7 -/

/-- C7: for every non-command message, the handler's trace shows the
typing presence indicator entered right after the receipt log and cleared
as the very last action, with the whole try/except unit — the orchestrator
call included — strictly inside that scope; this single trace shape covers
every exit path, success and error alike, and the handler's outcome is
exactly the unit's outcome. -/
theorem typing_scope_brackets_processing (env : Env) (event : InboundMsg)
    (hq : strStartsWith event.text "/" = false) :
    (message_handler env event).1 =
      Act.logInfo ("Received query from chat_id " ++ toString event.chat_id ++
          ": \x27" ++ event.text ++ "\x27") ::
        Act.typing event.chat_id ::
        ((tryClause env event.chat_id event.text).1 ++ [Act.typingCleared event.chat_id]) ∧
    (message_handler env event).2 = (tryClause env event.chat_id event.text).2 := by
  rw [message_handler_eq env event hq]
  exact ⟨rfl, rfl⟩

theorem typing_scope_brackets_processing_witness :
    (message_handler envBad ⟨"hi", 1⟩).1 =
      Act.logInfo ("Received query from chat_id " ++ toString (1 : Int) ++
          ": \x27" ++ "hi" ++ "\x27") ::
        Act.typing 1 :: ((tryClause envBad 1 "hi").1 ++ [Act.typingCleared 1]) ∧
    (message_handler envBad ⟨"hi", 1⟩).2 = (tryClause envBad 1 "hi").2 :=
  typing_scope_brackets_processing envBad ⟨"hi", 1⟩ (by decide)

/-! ### C10 -/

/-- C10: when the per-message unit has entered its error branch — the
pipeline raised, or the delivery of the answer raised — and the delivery
of the apology itself then raises, that second exception is not caught:
the handler's outcome is that error, propagated out of the per-message
unit, and its trace ends after the error log with the cleared typing
indicator — no apology reply was delivered. -/
theorem apology_failure_propagates (env : Env) (event : InboundMsg) (e0 e : Exn)
    (hq : strStartsWith event.text "/" = false)
    (hfail : (process_query env.search env.gen event.text).2 = Except.error e0 ∨
      ∃ ans, (process_query env.search env.gen event.text).2 = Except.ok ans ∧
        env.respond event.chat_id ans = Except.error e0)
    (ha : env.respond event.chat_id apology = Except.error e) :
    (message_handler env event).2 = Except.error e ∧
    (message_handler env event).1 =
      Act.logInfo ("Received query from chat_id " ++ toString event.chat_id ++
          ": \x27" ++ event.text ++ "\x27") ::
        Act.typing event.chat_id ::
        (((process_query env.search env.gen event.text).1 ++
          [Act.logError ("An error occurred while processing query for chat_id " ++
            toString event.chat_id ++ ": " ++ e0.msg)]) ++
         [Act.typingCleared event.chat_id]) := by
  have hex : exceptClause env event.chat_id e0 =
      ([Act.logError ("An error occurred while processing query for chat_id " ++
          toString event.chat_id ++ ": " ++ e0.msg)], Except.error e) := by
    unfold exceptClause; rw [ha]
  have ht : tryClause env event.chat_id event.text =
      ((process_query env.search env.gen event.text).1 ++ (exceptClause env event.chat_id e0).1,
       (exceptClause env event.chat_id e0).2) := by
    rcases hfail with hp | ⟨ans, hok, hr⟩
    · unfold tryClause; rw [hp]
    · unfold tryClause
      rw [hok]
      dsimp only
      rw [hr]
  rw [message_handler_eq env event hq, ht, hex]
  exact ⟨rfl, rfl⟩

theorem apology_failure_propagates_witness :
    (message_handler envBad2 ⟨"hi", 1⟩).2 = Except.error ⟨"network down"⟩ ∧
    (message_handler envRespondDown ⟨"hi", 1⟩).2 = Except.error ⟨"network down"⟩ :=
  ⟨(apology_failure_propagates envBad2 ⟨"hi", 1⟩ ⟨"boom"⟩ ⟨"network down"⟩
      (by decide) (Or.inl rfl) rfl).1,
   (apology_failure_propagates envRespondDown ⟨"hi", 1⟩ ⟨"network down"⟩ ⟨"network down"⟩
      (by decide) (Or.inr ⟨"the answer", rfl, rfl⟩) rfl).1⟩

theorem process_query_issues_three_searches_witness :
    retrievalCalls (process_query envOk.search envOk.gen "What is photosynthesis?").1 =
      [Act.searchCall "key_words" 5 "What is photosynthesis?",
       Act.searchCall "general_text" 5 "What is photosynthesis?",
       Act.searchCall "tables" 5 "What is photosynthesis?"] :=
  process_query_issues_three_searches (fun _ _ _ => emptySR) envOk.gen "What is photosynthesis?"

theorem score_decimal_places_le_two_witness :
    decimalPlaces (renderScore (some (mkRat 1 2))) ≤ 2 :=
  score_decimal_places_le_two (some (mkRat 1 2))
